import Mathlib

/-!
Verification of the Vitess per-shard query-service conformance contract
(`go/vt/tabletserver/tabletconntest/tabletconntest.go` and
`proto/queryservice.proto`), formalised as a shallow embedding.

The server side of the conformance suite is `FakeQueryService`: every entry
point first consults the `hasError` flag (returning the fixed
`testTabletError`), then the `panics` flag (raising a runtime fault that the
`HandlePanic` deferred guard converts into a `caught test panic: ...` error),
then performs the fixture conformance checks (`t.Errorf` calls, modelled as a
list of recorded conformance errors) and returns the fixture reply.

Go slices distinguish `nil` from an empty slice under `reflect.DeepEqual`,
so slice-valued fields are modelled as `Option (List _)`; Go `int64` values
in the fixtures are small, so they are modelled as `Int` directly.
-/

namespace Vitess

/-- A sql value as produced by `sqltypes.MakeString` in the fixtures. -/
abbrev SqlValue := String

/-- One result row: an ordered sequence of values. -/
abbrev Row := List SqlValue

/-- `mproto.Field`: one result column descriptor. -/
structure Field where
  name : String
  type : Int
deriving DecidableEq, Repr

/-- `mproto.QueryResult`. `fields`/`rows` are Go slices: `none` models a nil
slice, `some l` a present slice, because `reflect.DeepEqual` distinguishes
the two. -/
structure QueryResult where
  fields : Option (List Field)
  rows : Option (List Row)
  rowsAffected : Nat
  insertId : Nat
deriving DecidableEq, Repr

/-- `proto.BoundQuery`: sql text plus bind variables. The fixture bind
variables are all `int64`, modelled as an association list. -/
structure BoundQuery where
  sql : String
  bindVariables : List (String × Int)
deriving DecidableEq, Repr

/-- `proto.Query`: the payload of Execute / StreamExecute. -/
structure Query where
  sql : String
  bindVariables : List (String × Int)
  sessionId : Int
  transactionId : Int
deriving DecidableEq, Repr

/-- `proto.Session`: the payload of Begin / Commit / Rollback. -/
structure Session where
  sessionId : Int
  transactionId : Int
deriving DecidableEq, Repr

/-- `proto.QuerySplit`: one split produced by SplitQuery. -/
structure QuerySplit where
  query : BoundQuery
  rowCount : Int
deriving DecidableEq, Repr

/-- The error types of `tabletserver.NewTabletError`; the conformance suite
only ever constructs `fail` (`tabletserver.ErrFail`). -/
inductive TabletErrorType
  | fail
  | retry
  | fatal
deriving DecidableEq, Repr

/-- `tabletserver.TabletError`: a typed server error. -/
structure TabletError where
  errorType : TabletErrorType
  message : String
deriving DecidableEq, Repr

/-- `tabletserver.NewTabletError`. -/
def newTabletError (t : TabletErrorType) (m : String) : TabletError := ⟨t, m⟩

/-- `testTabletError = tabletserver.NewTabletError(tabletserver.ErrFail, "generic error")`. -/
def testTabletError : TabletError := newTabletError .fail "generic error"

/-- Modelled from the spec: the human-readable string form of a server error
(`TabletError.Error()`, whose source is not under src): per spec sections 3
(CallError) and 6, each error is surfaced as the string `error: <message>`. -/
def tabletErrorMessage (e : TabletError) : String := "error: " ++ e.message

/-- `expectedErrMatch = "error: generic error"`. -/
def expectedErrMatch : String := "error: generic error"

/-- The outcome of running one Go server method body: a normal return value,
a returned `TabletError`, or a runtime panic carrying its message. -/
inductive GoOutcome (α : Type)
  | ok (a : α)
  | errored (e : TabletError)
  | panicked (msg : String)
deriving DecidableEq, Repr

/-- The message built by `FakeQueryService.HandlePanic`:
`fmt.Errorf("caught test panic: %v", x)`. -/
def handlePanicMsg (m : String) : String := "caught test panic: " ++ m

/-- The `HandlePanic` deferred guard around a server method: a panic is
recovered and becomes a normal error value; a returned `TabletError` is
surfaced with its string form; a normal return passes through. -/
def handlePanic {α : Type} : GoOutcome α → Except String α
  | .ok a => .ok a
  | .errored e => .error (tabletErrorMessage e)
  | .panicked m => .error (handlePanicMsg m)

/-- Whether the first character list starts the second. -/
def charsStartWith : List Char → List Char → Bool
  | [], _ => true
  | _ :: _, [] => false
  | a :: as, b :: bs => if a = b then charsStartWith as bs else false

/-- Whether the first character list occurs contiguously inside the second. -/
def charsContain (sub : List Char) : List Char → Bool
  | [] => sub.isEmpty
  | b :: bs => charsStartWith sub (b :: bs) || charsContain sub bs

/-- Go `strings.Contains sub s`. -/
def strContains (s sub : String) : Bool := charsContain sub.data s.data

/-- `strings.Contains` lifted to an optional error message; `none` (no error)
contains nothing. -/
def optContains (o : Option String) (sub : String) : Bool :=
  match o with
  | none => false
  | some m => strContains m sub

/-- The error component of a wrapped call, as observed by the caller. -/
def exceptError {α : Type} : Except String α → Option String
  | .ok _ => none
  | .error m => some m

/-- `FakeQueryService`: the server side of the conformance suite. The
`testing.T` handle is not state; the three flags are. -/
structure FakeQueryService where
  hasError : Bool
  panics : Bool
  streamExecutePanicsEarly : Bool
deriving DecidableEq, Repr

/-- The fake returned by `CreateFakeServer`: all flags off. -/
def createFakeServer : FakeQueryService :=
  { hasError := false, panics := false, streamExecutePanicsEarly := false }

def testSessionID : Int := 5678
def beginTransactionID : Int := 9990
def commitTransactionID : Int := 999044
def rollbackTransactionID : Int := 999044

/-- The `t.Errorf` conformance checks of `FakeQueryService.Begin`: the session
must carry the handshake session id and a zero transaction id. -/
def beginConformanceErrors (s : Session) : List String :=
  (if s.sessionId = testSessionID then [] else ["Begin: invalid SessionId"]) ++
  (if s.transactionId = 0 then [] else ["Begin: invalid TransactionId"])

/-- `FakeQueryService.Begin`: error flag first, then panic flag, then the
conformance checks, then the fixture transaction id. Returns the method
outcome paired with the recorded conformance errors. -/
def fakeBegin (f : FakeQueryService) (s : Session) : GoOutcome Int × List String :=
  if f.hasError then (.errored testTabletError, [])
  else if f.panics then (.panicked "test-triggered panic", [])
  else (.ok beginTransactionID, beginConformanceErrors s)

/-- The `t.Errorf` conformance checks of `FakeQueryService.Commit`. -/
def commitConformanceErrors (s : Session) : List String :=
  (if s.sessionId = testSessionID then [] else ["Commit: invalid SessionId"]) ++
  (if s.transactionId = commitTransactionID then [] else ["Commit: invalid TransactionId"])

/-- `FakeQueryService.Commit`. -/
def fakeCommit (f : FakeQueryService) (s : Session) : GoOutcome Unit × List String :=
  if f.hasError then (.errored testTabletError, [])
  else if f.panics then (.panicked "test-triggered panic", [])
  else (.ok (), commitConformanceErrors s)

/-- The `t.Errorf` conformance checks of `FakeQueryService.Rollback`. -/
def rollbackConformanceErrors (s : Session) : List String :=
  (if s.sessionId = testSessionID then [] else ["Rollback: invalid SessionId"]) ++
  (if s.transactionId = rollbackTransactionID then [] else ["Rollback: invalid TransactionId"])

/-- `FakeQueryService.Rollback`. -/
def fakeRollback (f : FakeQueryService) (s : Session) : GoOutcome Unit × List String :=
  if f.hasError then (.errored testTabletError, [])
  else if f.panics then (.panicked "test-triggered panic", [])
  else (.ok (), rollbackConformanceErrors s)

def executeQuery : String := "executeQuery"
def executeBindVars : List (String × Int) := [("bind1", 1114444)]
def executeTransactionID : Int := 678

/-- `executeQueryResult`: the fixture reply of Execute. -/
def executeQueryResult : QueryResult :=
  { fields := some [⟨"field1", 42⟩, ⟨"field2", 73⟩],
    rows := some [["row1 value1", "row1 value2"], ["row2 value1", "row2 value2"]],
    rowsAffected := 123,
    insertId := 72 }

/-- The `t.Errorf` conformance checks of `FakeQueryService.Execute`. -/
def executeConformanceErrors (q : Query) : List String :=
  (if q.sql = executeQuery then [] else ["invalid Execute.Query.Sql"]) ++
  (if q.bindVariables = executeBindVars then [] else ["invalid Execute.Query.BindVariables"]) ++
  (if q.sessionId = testSessionID then [] else ["invalid Execute.Query.SessionId"]) ++
  (if q.transactionId = executeTransactionID then [] else ["invalid Execute.Query.TransactionId"])

/-- `FakeQueryService.Execute`. -/
def fakeExecute (f : FakeQueryService) (q : Query) : GoOutcome QueryResult × List String :=
  if f.hasError then (.errored testTabletError, [])
  else if f.panics then (.panicked "test-triggered panic", [])
  else (.ok executeQueryResult, executeConformanceErrors q)

def streamExecuteQuery : String := "streamExecuteQuery"
def streamExecuteBindVars : List (String × Int) := [("bind1", 93848000)]
def streamExecuteTransactionID : Int := 6789992

/-- `streamExecuteQueryResult1`: the fields-only first chunk (its `Rows` slice
is the Go zero value nil). -/
def streamExecuteQueryResult1 : QueryResult :=
  { fields := some [⟨"field1", 42⟩, ⟨"field2", 73⟩],
    rows := none,
    rowsAffected := 0,
    insertId := 0 }

/-- `streamExecuteQueryResult2`: the rows-only second chunk (its `Fields`
slice is the Go zero value nil). -/
def streamExecuteQueryResult2 : QueryResult :=
  { fields := none,
    rows := some [["row1 value1", "row1 value2"], ["row2 value1", "row2 value2"]],
    rowsAffected := 0,
    insertId := 0 }

/-- The `t.Errorf` conformance checks of `FakeQueryService.StreamExecute`
(sql, bind variables and session id; no transaction-id check in the source). -/
def streamConformanceErrors (q : Query) : List String :=
  (if q.sql = streamExecuteQuery then [] else ["invalid StreamExecute.Query.Sql"]) ++
  (if q.bindVariables = streamExecuteBindVars then [] else ["invalid StreamExecute.Query.BindVariables"]) ++
  (if q.sessionId = testSessionID then [] else ["invalid StreamExecute.Query.SessionId"])

/-- `FakeQueryService.StreamExecute`: with `panics && streamExecutePanicsEarly`
it panics before sending anything; otherwise it sends the fields chunk, then
either panics late, or (after the `errorWait` synchronisation, which the
embedding abstracts away) returns the fixture error, or sends the rows chunk
and returns nil. Result: chunks sent, method outcome, conformance errors. -/
def fakeStreamExecute (f : FakeQueryService) (q : Query) :
    List QueryResult × GoOutcome Unit × List String :=
  if f.panics && f.streamExecutePanicsEarly then
    ([], .panicked "test-triggered panic early", [])
  else if f.panics then
    ([streamExecuteQueryResult1], .panicked "test-triggered panic late", streamConformanceErrors q)
  else if f.hasError then
    ([streamExecuteQueryResult1], .errored testTabletError, streamConformanceErrors q)
  else
    ([streamExecuteQueryResult1, streamExecuteQueryResult2], .ok (), streamConformanceErrors q)

/-- The terminal error the `errFunc` accessor reports once the stream closes:
the `HandlePanic` guard turns a panic into a caught-panic error, a returned
`TabletError` is surfaced with its string form, a nil return means no error. -/
def streamTerminalError : GoOutcome Unit → Option String
  | .ok _ => none
  | .errored e => some (tabletErrorMessage e)
  | .panicked m => some (handlePanicMsg m)

/-- The query the conformance tests send on StreamExecute. -/
def validStreamQuery : Query :=
  ⟨streamExecuteQuery, streamExecuteBindVars, testSessionID, streamExecuteTransactionID⟩

/-- A full StreamExecute round trip on the conformance query: the chunk
sequence the client receives before the channel closes, and the terminal
error the `errFunc` accessor reports afterwards. -/
def wrappedStreamExecute (f : FakeQueryService) : List QueryResult × Option String :=
  ((fakeStreamExecute f validStreamQuery).1,
   streamTerminalError (fakeStreamExecute f validStreamQuery).2.1)

def executeBatchQueries : List BoundQuery :=
  [⟨"executeBatchQueries1", [("bind1", 43)]⟩,
   ⟨"executeBatchQueries2", [("bind2", 72)]⟩]

def executeBatchTransactionID : Int := 678

/-- `executeBatchQueryResultList.List`: the fixture reply of ExecuteBatch. -/
def executeBatchQueryResultList : List QueryResult :=
  [{ fields := some [⟨"field1", 46⟩],
     rows := some [["row1 value1"], ["row2 value1"]],
     rowsAffected := 1232,
     insertId := 712 },
   { fields := some [⟨"field1", 42⟩],
     rows := some [["row1 value1", "row1 value2"]],
     rowsAffected := 12333,
     insertId := 74442 }]

/-- `proto.QueryList`: the payload of ExecuteBatch. -/
structure QueryList where
  queries : List BoundQuery
  sessionId : Int
  transactionId : Int
deriving DecidableEq, Repr

/-- The `t.Errorf` conformance checks of `FakeQueryService.ExecuteBatch`. -/
def executeBatchConformanceErrors (ql : QueryList) : List String :=
  (if ql.queries = executeBatchQueries then [] else ["invalid ExecuteBatch.QueryList.Queries"]) ++
  (if ql.sessionId = testSessionID then [] else ["invalid ExecuteBatch.QueryList.SessionId"]) ++
  (if ql.transactionId = executeBatchTransactionID then [] else ["invalid ExecuteBatch.QueryList.TransactionId"])

/-- `FakeQueryService.ExecuteBatch`. -/
def fakeExecuteBatch (f : FakeQueryService) (ql : QueryList) :
    GoOutcome (List QueryResult) × List String :=
  if f.hasError then (.errored testTabletError, [])
  else if f.panics then (.panicked "test-triggered panic", [])
  else (.ok executeBatchQueryResultList, executeBatchConformanceErrors ql)

def splitQueryBoundQuery : BoundQuery := ⟨"splitQuery", [("bind1", 43)]⟩
def splitQuerySplitCount : Int := 372

/-- `splitQueryQuerySplitList`: the fixture reply of SplitQuery. -/
def splitQueryQuerySplitList : List QuerySplit :=
  [⟨⟨"splitQuery", [("bind1", 43), ("keyspace_id", 3333)]⟩, 4456⟩]

/-- `proto.SplitQueryRequest`. -/
structure SplitQueryRequest where
  query : BoundQuery
  splitCount : Int
deriving DecidableEq, Repr

/-- The `t.Errorf` conformance checks of `FakeQueryService.SplitQuery`. -/
def splitQueryConformanceErrors (req : SplitQueryRequest) : List String :=
  (if req.query = splitQueryBoundQuery then [] else ["invalid SplitQuery.SplitQueryRequest.Query"]) ++
  (if req.splitCount = splitQuerySplitCount then [] else ["invalid SplitQuery.SplitQueryRequest.SplitCount"])

/-- `FakeQueryService.SplitQuery`. -/
def fakeSplitQuery (f : FakeQueryService) (req : SplitQueryRequest) :
    GoOutcome (List QuerySplit) × List String :=
  if f.hasError then (.errored testTabletError, [])
  else if f.panics then (.panicked "test-triggered panic", [])
  else (.ok splitQueryQuerySplitList, splitQueryConformanceErrors req)

/-- The nine RPC entry points exercised by the conformance suite. The v2
conn methods (`Begin2`, `StreamExecute2`) reach the same server methods as
their v1 forms: the fake has a single `Begin` and a single `StreamExecute`. -/
inductive EntryPoint
  | begin
  | begin2
  | commit
  | rollback
  | execute
  | executeBatch
  | streamExecute
  | streamExecute2
  | splitQuery
deriving DecidableEq, Repr

/-- The session the conn sends on Begin: handshake session id, transaction id 0. -/
def validBeginSession : Session := ⟨testSessionID, 0⟩

/-- The session the conn sends on Commit. -/
def validCommitSession : Session := ⟨testSessionID, commitTransactionID⟩

/-- The session the conn sends on Rollback. -/
def validRollbackSession : Session := ⟨testSessionID, rollbackTransactionID⟩

/-- The query the conformance tests send on Execute. -/
def validExecuteQuery : Query :=
  ⟨executeQuery, executeBindVars, testSessionID, executeTransactionID⟩

/-- The query list the conformance tests send on ExecuteBatch. -/
def validBatchRequest : QueryList :=
  ⟨executeBatchQueries, testSessionID, executeBatchTransactionID⟩

/-- The request the conformance tests send on SplitQuery. -/
def validSplitRequest : SplitQueryRequest := ⟨splitQueryBoundQuery, splitQuerySplitCount⟩

/-- The error a caller observes from one wrapped conformance call on the
given entry point (for the streaming entry points: the terminal error the
`errFunc` accessor reports once the stream closes). -/
def surfacedError (f : FakeQueryService) : EntryPoint → Option String
  | .begin => exceptError (handlePanic (fakeBegin f validBeginSession).1)
  | .begin2 => exceptError (handlePanic (fakeBegin f validBeginSession).1)
  | .commit => exceptError (handlePanic (fakeCommit f validCommitSession).1)
  | .rollback => exceptError (handlePanic (fakeRollback f validRollbackSession).1)
  | .execute => exceptError (handlePanic (fakeExecute f validExecuteQuery).1)
  | .executeBatch => exceptError (handlePanic (fakeExecuteBatch f validBatchRequest).1)
  | .streamExecute => (wrappedStreamExecute f).2
  | .streamExecute2 => (wrappedStreamExecute f).2
  | .splitQuery => exceptError (handlePanic (fakeSplitQuery f validSplitRequest).1)

/-- A chunk carrying fields only: present fields, absent rows. -/
def fieldsOnlyChunk (qr : QueryResult) : Bool := qr.fields.isSome && qr.rows.isNone

/-- A chunk carrying rows only: present rows, absent fields. -/
def rowsOnlyChunk (qr : QueryResult) : Bool := qr.rows.isSome && qr.fields.isNone

/-- One client-side StreamExecute run as the conformance tests observe it:
the error of the call itself, the chunks read before the channel closed,
and the terminal error reported by `errFunc`. -/
structure StreamClientRun where
  callErr : Option String
  chunks : List QueryResult
  termErr : Option String
deriving DecidableEq, Repr

/-- The acceptance condition of the early-panic half of
`testStreamExecutePanics`: either the call itself fails with a caught-panic
error, or the call succeeds, the stream closes without delivering any chunk,
and `errFunc` reports the caught-panic error. -/
def earlyPanicRunAccepted (r : StreamClientRun) : Bool :=
  match r.callErr with
  | some e => strContains e "caught test panic"
  | none => r.chunks.isEmpty && optContains r.termErr "caught test panic"

/-- The reading of the claim under test for C4: the early fault is reported
synchronously, as a failure of the StreamExecute call itself. -/
def earlyFaultReportedSynchronously (r : StreamClientRun) : Bool :=
  optContains r.callErr "caught test panic"

/-- The two generations of each transaction-control method. -/
inductive Delivery
  | v1
  | v2
deriving DecidableEq, Repr

/-- What travels back on the wire: a success payload, an error folded into
the reply payload, or a call-level failure. -/
inductive WireReply (α : Type)
  | payload (a : α)
  | embeddedError (msg : String)
  | callFailure (msg : String)
deriving DecidableEq, Repr

/-- Modelled from the spec: the dual error-delivery adapter of section 4.6
(the production conn/server adapters and the `RPCErrorOnlyInReply` plumbing
are not under src; only the conformance tests that exercise `Begin2`,
`Commit2` and `Rollback2` are). Both generations run the same internal
operation; the v1 form folds an error into the reply when the server-wide
`RPCErrorOnlyInReply` flag is set, while the v2 form always reports errors
as a call-level failure. Error content is passed through unchanged. -/
def deliver {α : Type} (gen : Delivery) (rpcErrorOnlyInReply : Bool) :
    Except String α → WireReply α
  | .ok a => .payload a
  | .error m =>
    match gen with
    | .v2 => .callFailure m
    | .v1 => if rpcErrorOnlyInReply then .embeddedError m else .callFailure m

/-- How the client conn turns a wire reply back into a result: an embedded
error and a call-level failure both become the same caller-visible error. -/
def clientObserve {α : Type} : WireReply α → Except String α
  | .payload a => .ok a
  | .embeddedError m => .error m
  | .callFailure m => .error m

/-- The shared internal Begin operation both generations delegate to. -/
def beginServerCall (f : FakeQueryService) : Except String Int :=
  handlePanic (fakeBegin f validBeginSession).1

/-- The shared internal Commit operation both generations delegate to. -/
def commitServerCall (f : FakeQueryService) : Except String Unit :=
  handlePanic (fakeCommit f validCommitSession).1

/-- The shared internal Rollback operation both generations delegate to. -/
def rollbackServerCall (f : FakeQueryService) : Except String Unit :=
  handlePanic (fakeRollback f validRollbackSession).1

/-- Modelled from the spec: the batch executor of section 4.2 (the production
`ExecuteBatch` is not under src; only the conformance fake and test are).
Each bound query is executed in the supplied order against the same engine
and transaction context; an engine failure fails the whole call with no
partial result list. -/
def executeBatchModel (engine : BoundQuery → Except TabletError QueryResult) :
    List BoundQuery → Except TabletError (List QueryResult)
  | [] => .ok []
  | q :: qs =>
    match engine q with
    | .error e => .error e
    | .ok r =>
      match executeBatchModel engine qs with
      | .error e => .error e
      | .ok rs => .ok (r :: rs)

/-- The error kinds of section 7. -/
inductive CallErrorKind
  | invalidSession
  | notInTransaction
  | sessionMismatch
  | invalidArgument
  | executionFailed
  | cancelled
  | internal
deriving DecidableEq, Repr

/-- Section 3 `CallError`: a kind and a message. -/
structure CallError where
  kind : CallErrorKind
  message : String
deriving DecidableEq, Repr

/-- The message of the non-positive split-count usage error. -/
def splitCountErrMsg : String := "splitQuery: split count must be positive"

/-- Modelled from the spec: the SplitQuery entry guard of section 4.4 (the
production SplitQuery is not under src; only the conformance fake and test
are). A non-positive split count is rejected as `InvalidArgument` before any
engine work; a positive split count returns the splits the splitter
produces. -/
def splitQueryModel (splitter : BoundQuery → Int → List QuerySplit)
    (q : BoundQuery) (splitCount : Int) : Except CallError (List QuerySplit) :=
  if splitCount ≤ 0 then .error ⟨.invalidArgument, splitCountErrMsg⟩
  else .ok (splitter q splitCount)

/-- The length of a Go slice: `len(nil) = 0`. -/
def rowsLen (qr : QueryResult) : Nat :=
  match qr.rows with
  | none => 0
  | some l => l.length

/-- The length of the fields slice: `len(nil) = 0`. -/
def fieldsLen (qr : QueryResult) : Nat :=
  match qr.fields with
  | none => 0
  | some l => l.length

/-- The normalisation `if len(qr.Rows) == 0 { qr.Rows = nil }` the streaming
conformance tests apply to a received chunk before comparing it. -/
def normalizeRows (qr : QueryResult) : QueryResult :=
  if rowsLen qr = 0 then { qr with rows := none } else qr

/-- The normalisation `if len(qr.Fields) == 0 { qr.Fields = nil }` the
streaming conformance tests apply to a received chunk before comparing it. -/
def normalizeFields (qr : QueryResult) : QueryResult :=
  if fieldsLen qr = 0 then { qr with fields := none } else qr

/-- Acceptance of the first streamed chunk by the conformance tests:
normalise the rows slice, then require deep equality with the fields-only
fixture chunk. -/
def chunk1Accepted (qr : QueryResult) : Bool :=
  normalizeRows qr == streamExecuteQueryResult1

/-- Acceptance of the second streamed chunk by the conformance tests:
normalise the fields slice, then require deep equality with the rows-only
fixture chunk. -/
def chunk2Accepted (qr : QueryResult) : Bool :=
  normalizeFields qr == streamExecuteQueryResult2

/-- C1: on every entry point, an injected runtime fault is intercepted and
surfaced to the caller as a normal error value whose message carries the
`caught test panic` marker, which neither appears in a normal engine-reported
error (`error: generic error`) nor carries the engine-error text itself; and
after the fault, a call on a server with the fault injection cleared
succeeds, so the server keeps serving unrelated calls. -/
theorem c1_panic_containment (e : EntryPoint) (f : FakeQueryService)
    (hp : f.panics = true) (he : f.hasError = false) :
    optContains (surfacedError f e) "caught test panic" = true
    ∧ optContains (surfacedError f e) expectedErrMatch = false
    ∧ strContains (tabletErrorMessage testTabletError) "caught test panic" = false
    ∧ surfacedError createFakeServer e = none := by
  rcases f with ⟨hasErr, pan, early⟩
  cases hasErr
  · cases pan
    · exact Bool.noConfusion hp
    · cases early <;> cases e <;> decide
  · exact Bool.noConfusion he

/-- Witness for C1 at the Begin entry point with the panic flag set. -/
theorem c1_panic_containment_witness :
    optContains (surfacedError ⟨false, true, false⟩ EntryPoint.begin) "caught test panic" = true
    ∧ optContains (surfacedError ⟨false, true, false⟩ EntryPoint.begin) expectedErrMatch = false
    ∧ strContains (tabletErrorMessage testTabletError) "caught test panic" = false
    ∧ surfacedError createFakeServer EntryPoint.begin = none :=
  c1_panic_containment EntryPoint.begin ⟨false, true, false⟩ rfl rfl

/-- C2: every successful StreamExecute (and StreamExecute2, which reaches the
same server method) delivers a non-empty chunk sequence whose first chunk
(`take 1`) carries fields only and no rows and whose subsequent chunks
(`drop 1`) carry rows only and no fields, with no terminal error. -/
theorem c2_stream_fragmentation (f : FakeQueryService)
    (he : f.hasError = false) (hp : f.panics = false) :
    (wrappedStreamExecute f).1.isEmpty = false
    ∧ ((wrappedStreamExecute f).1.take 1).all fieldsOnlyChunk = true
    ∧ ((wrappedStreamExecute f).1.drop 1).all rowsOnlyChunk = true
    ∧ (wrappedStreamExecute f).2 = none := by
  rcases f with ⟨hasErr, pan, early⟩
  cases hasErr
  · cases pan
    · cases early <;> decide
    · exact Bool.noConfusion hp
  · exact Bool.noConfusion he

/-- Witness for C2 on the default conformance server. -/
theorem c2_stream_fragmentation_witness :
    (wrappedStreamExecute createFakeServer).1.isEmpty = false
    ∧ ((wrappedStreamExecute createFakeServer).1.take 1).all fieldsOnlyChunk = true
    ∧ ((wrappedStreamExecute createFakeServer).1.drop 1).all rowsOnlyChunk = true
    ∧ (wrappedStreamExecute createFakeServer).2 = none :=
  c2_stream_fragmentation createFakeServer rfl rfl

/-- C3: for every server configuration, the StreamExecute run closes with a
single terminal value, and the `errFunc` accessor reports no error exactly
when the row chunk was delivered (all rows of the fixture stream); when
execution fails after the fields chunk, the stream closes with no further
chunks and the accessor carries the failure message `error: generic error`. -/
theorem c3_stream_terminal_accessor (f : FakeQueryService) :
    ((wrappedStreamExecute f).2 = none ↔
      streamExecuteQueryResult2 ∈ (wrappedStreamExecute f).1)
    ∧ (f.hasError = true → f.panics = false →
        (wrappedStreamExecute f).1 = [streamExecuteQueryResult1]
        ∧ optContains (wrappedStreamExecute f).2 expectedErrMatch = true) := by
  rcases f with ⟨hasErr, pan, early⟩
  cases hasErr <;> cases pan <;> cases early <;> decide

/-- Witness for C3 on the error-injecting server. -/
theorem c3_stream_terminal_accessor_witness :
    ((wrappedStreamExecute ⟨true, false, false⟩).2 = none ↔
      streamExecuteQueryResult2 ∈ (wrappedStreamExecute ⟨true, false, false⟩).1)
    ∧ ((FakeQueryService.mk true false false).hasError = true →
        (FakeQueryService.mk true false false).panics = false →
        (wrappedStreamExecute ⟨true, false, false⟩).1 = [streamExecuteQueryResult1]
        ∧ optContains (wrappedStreamExecute ⟨true, false, false⟩).2 expectedErrMatch = true) :=
  c3_stream_terminal_accessor ⟨true, false, false⟩

/-- C4 counterexample: the early-panic conformance contract
(`testStreamExecutePanics`, first half) accepts a run in which the call
itself succeeds and the caught fault reaches the caller only through the
terminal-error accessor after an empty stream — so a fault occurring before
any chunk (the server produces no chunk, third conjunct) is not necessarily
reported synchronously as a failure of the call itself. -/
theorem c4_counterexample :
    earlyPanicRunAccepted
        ⟨none, [], some (handlePanicMsg "test-triggered panic early")⟩ = true
    ∧ earlyFaultReportedSynchronously
        ⟨none, [], some (handlePanicMsg "test-triggered panic early")⟩ = false
    ∧ (wrappedStreamExecute ⟨false, true, true⟩).1 = [] := by decide

/-- C4 (amended): a fault before any chunk has been produced yields an empty
chunk sequence and a caught-fault error that may reach the caller on either
channel — as a failure of the call itself or through the terminal accessor —
both accepted by the conformance contract; a fault after the fields chunk
leaves the delivered chunk intact and is reported through the terminal
accessor; no faulted stream closes with the accessor silent. -/
theorem c4_fault_reporting (f : FakeQueryService) (hp : f.panics = true) :
    (wrappedStreamExecute f).2.isSome = true
    ∧ (f.streamExecutePanicsEarly = true →
        (wrappedStreamExecute f).1 = []
        ∧ (wrappedStreamExecute f).2 = some (handlePanicMsg "test-triggered panic early")
        ∧ earlyPanicRunAccepted
            ⟨none, (wrappedStreamExecute f).1, (wrappedStreamExecute f).2⟩ = true
        ∧ earlyPanicRunAccepted ⟨(wrappedStreamExecute f).2, [], none⟩ = true)
    ∧ (f.streamExecutePanicsEarly = false →
        (wrappedStreamExecute f).1 = [streamExecuteQueryResult1]
        ∧ optContains (wrappedStreamExecute f).2 "caught test panic" = true) := by
  rcases f with ⟨hasErr, pan, early⟩
  cases pan
  · exact Bool.noConfusion hp
  · cases hasErr <;> cases early <;> decide

/-- Witness for the amended C4 on the early-panicking server. -/
theorem c4_fault_reporting_witness :
    (wrappedStreamExecute ⟨false, true, true⟩).2.isSome = true
    ∧ ((FakeQueryService.mk false true true).streamExecutePanicsEarly = true →
        (wrappedStreamExecute ⟨false, true, true⟩).1 = []
        ∧ (wrappedStreamExecute ⟨false, true, true⟩).2
            = some (handlePanicMsg "test-triggered panic early")
        ∧ earlyPanicRunAccepted
            ⟨none, (wrappedStreamExecute ⟨false, true, true⟩).1,
              (wrappedStreamExecute ⟨false, true, true⟩).2⟩ = true
        ∧ earlyPanicRunAccepted
            ⟨(wrappedStreamExecute ⟨false, true, true⟩).2, [], none⟩ = true)
    ∧ ((FakeQueryService.mk false true true).streamExecutePanicsEarly = false →
        (wrappedStreamExecute ⟨false, true, true⟩).1 = [streamExecuteQueryResult1]
        ∧ optContains (wrappedStreamExecute ⟨false, true, true⟩).2 "caught test panic" = true) :=
  c4_fault_reporting ⟨false, true, true⟩ rfl

/-- C5: the v1 and v2 delivery of any internal operation result give the
caller the same observed result — same payload on success, same error
content on failure, whatever the server-wide `RPCErrorOnlyInReply` flag —
and concretely both generations of Begin/Commit/Rollback share one server
operation, returning the fixture transaction id on success and the error
string `error: generic error` (the exact conformance match) on failure. -/
theorem c5_dual_delivery_parity :
    (∀ (α : Type) (flag : Bool) (r : Except String α),
        clientObserve (deliver Delivery.v1 flag r)
          = clientObserve (deliver Delivery.v2 flag r))
    ∧ tabletErrorMessage testTabletError = expectedErrMatch
    ∧ beginServerCall createFakeServer = Except.ok beginTransactionID
    ∧ beginServerCall ⟨true, false, false⟩ = Except.error expectedErrMatch
    ∧ commitServerCall createFakeServer = Except.ok ()
    ∧ commitServerCall ⟨true, false, false⟩ = Except.error expectedErrMatch
    ∧ rollbackServerCall createFakeServer = Except.ok ()
    ∧ rollbackServerCall ⟨true, false, false⟩ = Except.error expectedErrMatch := by
  refine ⟨?_, rfl, rfl, rfl, rfl, rfl, rfl, rfl⟩
  intro α flag r
  cases r with
  | ok a => rfl
  | error m => cases flag <;> rfl

/-- C6 counterexample: a caught runtime fault surfaces on Begin with message
`caught test panic: test-triggered panic`, which does not contain the
literal `error: ` prefix — so not every surfaced error carries a message of
the form `error: <message>`. -/
theorem c6_counterexample :
    surfacedError ⟨false, true, false⟩ EntryPoint.begin
        = some (handlePanicMsg "test-triggered panic")
    ∧ strContains (handlePanicMsg "test-triggered panic") "error: " = false := by
  decide

/-- C6 (amended): for every entry point, an engine-reported error is surfaced
with the message `error: <message>` built from the underlying failure
description, matched exactly by the conformance tests; errors produced by
the fault-containment wrapper instead carry the `caught test panic: ` marker
without the `error: ` prefix. -/
theorem c6_error_prefix (e : EntryPoint) (f : FakeQueryService)
    (he : f.hasError = true) (hp : f.panics = false) :
    surfacedError f e = some (tabletErrorMessage testTabletError)
    ∧ tabletErrorMessage testTabletError = "error: " ++ testTabletError.message
    ∧ optContains (surfacedError f e) expectedErrMatch = true := by
  rcases f with ⟨hasErr, pan, early⟩
  cases hasErr
  · exact Bool.noConfusion he
  · cases pan
    · cases early <;> cases e <;> decide
    · exact Bool.noConfusion hp

/-- Witness for the amended C6 at the Begin entry point. -/
theorem c6_error_prefix_witness :
    surfacedError ⟨true, false, false⟩ EntryPoint.begin
        = some (tabletErrorMessage testTabletError)
    ∧ tabletErrorMessage testTabletError = "error: " ++ testTabletError.message
    ∧ optContains (surfacedError ⟨true, false, false⟩ EntryPoint.begin) expectedErrMatch = true :=
  c6_error_prefix EntryPoint.begin ⟨true, false, false⟩ rfl rfl

/-- C7: a successful batch execution returns one result per input query, in
input order: the result list has the length of the query list and its i-th
element is the engine result of the i-th query; and the conformance fixture
reply has exactly one result per fixture query. -/
theorem c7_batch_order (engine : BoundQuery → Except TabletError QueryResult)
    (qs : List BoundQuery) (rs : List QueryResult)
    (h : executeBatchModel engine qs = Except.ok rs) :
    (rs.length = qs.length
      ∧ ∀ i q, qs.get? i = some q → ∃ r, rs.get? i = some r ∧ engine q = Except.ok r)
    ∧ executeBatchQueryResultList.length = executeBatchQueries.length := by
  refine ⟨?_, rfl⟩
  induction qs generalizing rs with
  | nil =>
    simp only [executeBatchModel] at h
    injection h with h
    subst h
    refine ⟨rfl, ?_⟩
    intro i q hq
    cases i <;> exact Option.noConfusion hq
  | cons q qs ih =>
    simp only [executeBatchModel] at h
    cases heq : engine q with
    | error e => rw [heq] at h; exact Except.noConfusion h
    | ok r =>
      rw [heq] at h
      cases hrec : executeBatchModel engine qs with
      | error e => rw [hrec] at h; exact Except.noConfusion h
      | ok rest =>
        rw [hrec] at h
        injection h with h
        subst h
        obtain ⟨hlen, hidx⟩ := ih rest hrec
        refine ⟨by simpa using hlen, ?_⟩
        intro i q2 hq
        cases i with
        | zero =>
          injection hq with hq
          subst hq
          exact ⟨r, rfl, heq⟩
        | succ n => exact hidx n q2 hq

/-- Witness for C7 on the fixture query list with a constant engine. -/
theorem c7_batch_order_witness :
    ([executeQueryResult, executeQueryResult].length = executeBatchQueries.length)
    ∧ executeBatchQueryResultList.length = executeBatchQueries.length :=
  ⟨(c7_batch_order (fun _ => Except.ok executeQueryResult) executeBatchQueries
      [executeQueryResult, executeQueryResult] rfl).1.1,
   (c7_batch_order (fun _ => Except.ok executeQueryResult) executeBatchQueries
      [executeQueryResult, executeQueryResult] rfl).2⟩

/-- C8: a Begin request passes the conformance checks exactly when it carries
the handshake session id and transaction id 0; Begin returns the fresh
fixture transaction id without reading the supplied transaction id, and a
request with a nonzero transaction id is flagged as a misuse — Begin never
nests inside an open transaction. -/
theorem c8_begin_no_nesting (s : Session) (f : FakeQueryService)
    (he : f.hasError = false) (hp : f.panics = false) :
    ((fakeBegin f s).2 = [] ↔ (s.sessionId = testSessionID ∧ s.transactionId = 0))
    ∧ (fakeBegin f s).1 = GoOutcome.ok beginTransactionID
    ∧ (s.transactionId ≠ 0 → (fakeBegin f s).2 ≠ []) := by
  rcases f with ⟨hasErr, pan, early⟩
  cases hasErr
  · cases pan
    · have hiff : beginConformanceErrors s = []
          ↔ (s.sessionId = testSessionID ∧ s.transactionId = 0) := by
        unfold beginConformanceErrors
        rcases s with ⟨sid, tid⟩
        dsimp only
        by_cases h1 : sid = testSessionID <;> by_cases h2 : tid = 0 <;> simp [h1, h2]
      exact ⟨hiff, rfl, fun hne hnil => hne (hiff.mp hnil).2⟩
    · exact Bool.noConfusion hp
  · exact Bool.noConfusion he

/-- Witness for C8 on a request carrying a nonzero transaction id. -/
theorem c8_begin_no_nesting_witness :
    ((fakeBegin createFakeServer ⟨testSessionID, 7⟩).2 = []
      ↔ (testSessionID = testSessionID ∧ (7 : Int) = 0))
    ∧ (fakeBegin createFakeServer ⟨testSessionID, 7⟩).1 = GoOutcome.ok beginTransactionID
    ∧ ((7 : Int) ≠ 0 → (fakeBegin createFakeServer ⟨testSessionID, 7⟩).2 ≠ []) :=
  c8_begin_no_nesting ⟨testSessionID, 7⟩ createFakeServer rfl rfl

/-- C9: a SplitQuery call with a non-positive split count fails with an
`InvalidArgument` usage error whose result does not depend on the splitter
(no engine work is issued); with a positive split count it returns exactly
the splits the splitter produces, and the conformance fake returns the
fixture split list on the valid request. -/
theorem c9_split_query_guard (splitter spl2 : BoundQuery → Int → List QuerySplit)
    (q : BoundQuery) (splitCount : Int) :
    (splitCount ≤ 0 →
        splitQueryModel splitter q splitCount
            = Except.error ⟨CallErrorKind.invalidArgument, splitCountErrMsg⟩
        ∧ splitQueryModel splitter q splitCount = splitQueryModel spl2 q splitCount)
    ∧ (0 < splitCount →
        splitQueryModel splitter q splitCount = Except.ok (splitter q splitCount))
    ∧ (fakeSplitQuery createFakeServer validSplitRequest).1
        = GoOutcome.ok splitQueryQuerySplitList := by
  refine ⟨?_, ?_, rfl⟩
  · intro hle
    unfold splitQueryModel
    rw [if_pos hle, if_pos hle]
    exact ⟨rfl, rfl⟩
  · intro hpos
    unfold splitQueryModel
    rw [if_neg (by omega)]

/-- Witness for C9 at split counts 0 and 372. -/
theorem c9_split_query_guard_witness :
    splitQueryModel (fun _ _ => []) splitQueryBoundQuery 0
        = Except.error ⟨CallErrorKind.invalidArgument, splitCountErrMsg⟩
    ∧ splitQueryModel (fun _ _ => splitQueryQuerySplitList) splitQueryBoundQuery
        splitQuerySplitCount = Except.ok splitQueryQuerySplitList :=
  ⟨((c9_split_query_guard (fun _ _ => []) (fun _ _ => []) splitQueryBoundQuery 0).1
      (by decide)).1,
   (c9_split_query_guard (fun _ _ => splitQueryQuerySplitList) (fun _ _ => [])
      splitQueryBoundQuery splitQuerySplitCount).2.1 (by decide)⟩

/-- C10: the conformance comparison identifies a present-but-empty slice with
an absent one: normalising a chunk whose rows (resp. fields) list is empty
yields the chunk with that list absent, and both the exact fixture chunks
and their variants carrying an empty instead of an absent list are accepted
by the streamed-chunk comparisons. -/
theorem c10_empty_equals_absent (qr : QueryResult) :
    normalizeRows { qr with rows := some [] } = { qr with rows := none }
    ∧ normalizeFields { qr with fields := some [] } = { qr with fields := none }
    ∧ chunk1Accepted { streamExecuteQueryResult1 with rows := some [] } = true
    ∧ chunk1Accepted streamExecuteQueryResult1 = true
    ∧ chunk2Accepted { streamExecuteQueryResult2 with fields := some [] } = true
    ∧ chunk2Accepted streamExecuteQueryResult2 = true :=
  ⟨rfl, rfl, by decide, by decide, by decide, by decide⟩

end Vitess
